import Mathlib

/-!
# Verification of cloudconduit's configuration resolution engine

Shallow embedding of `cloudconduit`'s configuration code:
`utils/config_manager.py` (ConfigManager), `utils/config_helper.py`
(load_config, push_config_to_env), `utils/credential_manager.py`
(CredentialManager), `utils/system_info.py` (get_current_user), and the
required-parameter validation of `connectors/snowflake.py` and
`connectors/databricks.py`.

External effects are modelled by an explicit `World`:
* `os.environ` / `os.getenv` becomes `env : String → Option String`
  (`none` = unset; a set-but-empty variable is `some ""`);
* `platform.system() == "Darwin"` becomes `isMacos : Bool`;
* `keyring.get_password(service_name, k)` becomes
  `keyring : String → Option String` (`none` covers both an absent entry
  and a lookup that raises, which the source catches);
* the on-disk `config.yaml` becomes a `FileState`
  (missing / malformed / successfully parsed document);
* `getpass.getuser()` and `os.getlogin()` become `Option String`
  (`none` = the call raised).

Python truthiness of an optional string (`if value:`) is `pyTruthy`:
`some v` with `v ≠ ""`.  Dictionaries are association lists looked up
with `dictGet`.
-/

namespace CloudConduit

/-- A service/parameter configuration dictionary: parameter name to string
value (the shape of the parsed `config.yaml` second level). -/
abbrev ParamMap := List (String × String)

/-- A parsed defaults document: service name to parameter map
(`snowflake:/databricks:/s3:` top level of `config.yaml`). -/
abbrev Config := List (String × ParamMap)

/-- A call-site override mapping (`function_config` / `config` argument,
a Python `Dict[str, Any]`): values may be `None`, hence `Option String`. -/
abbrev FuncConfig := List (String × Option String)

/-- State of the defaults file on disk. -/
inductive FileState where
  | missing
  | malformed (blob : String)
  | parsed (config : Config)
deriving DecidableEq

/-- The external state a resolution reads: process environment, platform
flag, keychain contents, defaults file, and the OS identity sources. -/
structure World where
  env : String → Option String
  isMacos : Bool
  keyring : String → Option String
  defaultFile : FileState
  getpassUser : Option String
  osLogin : Option String

/-- Python truthiness of an optional string: `if value:` holds exactly for
a present, non-empty string. -/
def pyTruthy : Option String → Bool
  | some v => v ≠ ""
  | none => false

/-- First-match association-list lookup, the embedding of Python
`dict.get` / `key in dict` / `dict[key]` on our literal dictionaries. -/
def dictGet (key : String) : List (String × α) → Option α
  | [] => none
  | (k, v) :: rest => if k = key then some v else dictGet key rest

/-- Python `str.lower()` (ASCII case mapping, which is all the source's
keys use). -/
def strLower (s : String) : String := String.mk (s.data.map Char.toLower)

/-- Python `str.upper()` (ASCII case mapping). -/
def strUpper (s : String) : String := String.mk (s.data.map Char.toUpper)

/-! ## Static defaults loaders

Two loaders exist in the source.  `load_config` in `config_helper.py`
prints one warning on a parse failure; `ConfigManager._load_default_config`
swallows the failure silently ("Silently fail for default config loading").
Both return `{}` rather than raising.  We model "the file was opened and
parsed" as `readAndParse`, which raises (returns `.error`) on a missing or
malformed file, and each loader as the `try/except` wrapper around it.
The `Nat` component counts warning emissions on the diagnostic channel. -/

/-- Opening and parsing the file: raises `FileNotFoundError` when missing
and a YAML error when malformed (the behaviour the loaders' guards and
`try/except` blocks are written against). -/
def readAndParse : FileState → Except String Config
  | .missing => .error "FileNotFoundError"
  | .malformed _ => .error "YAMLError"
  | .parsed c => .ok c

/-- `config_helper.load_config`: missing file → `{}`; parse failure →
print one warning, return `{}`; otherwise the parsed document. -/
def load_config (fs : FileState) : Except String Config × Nat :=
  if fs = FileState.missing then (.ok [], 0)
  else
    match readAndParse fs with
    | .ok c => (.ok c, 0)
    | .error _ => (.ok [], 1)

/-- `ConfigManager._load_default_config` (ignoring the benign per-instance
cache, which only memoises this pure computation): missing file → `{}`;
parse failure → silently `{}` (no warning); otherwise the parsed
document. -/
def load_default_config (fs : FileState) : Except String Config × Nat :=
  if fs = FileState.missing then (.ok [], 0)
  else
    match readAndParse fs with
    | .ok c => (.ok c, 0)
    | .error _ => (.ok [], 0)

/-- The defaults document a `ConfigManager` resolves against. -/
def defaultConfigOf (w : World) : Config :=
  ((load_default_config w.defaultFile).1.toOption).getD []

/-! ## ConfigManager: key mapping, keychain tier, get_config_value -/

/-- The static `env_mappings` table of `ConfigManager._get_env_key`. -/
def env_mappings : List (String × List (String × String)) :=
  [("snowflake",
     [("account", "SNOWFLAKE_ACCOUNT"),
      ("warehouse", "SNOWFLAKE_WAREHOUSE"),
      ("database", "SNOWFLAKE_DATABASE"),
      ("schema", "SNOWFLAKE_SCHEMA"),
      ("user", "SNOWFLAKE_USER"),
      ("password", "SNOWFLAKE_PASSWORD"),
      ("private_key_path", "SNOWFLAKE_PRIVATE_KEY_PATH"),
      ("private_key_passphrase", "SNOWFLAKE_PRIVATE_KEY_PASSPHRASE"),
      ("authenticator", "SNOWFLAKE_AUTHENTICATOR")]),
   ("databricks",
     [("server_hostname", "DATABRICKS_SERVER_HOSTNAME"),
      ("http_path", "DATABRICKS_HTTP_PATH"),
      ("access_token", "DATABRICKS_ACCESS_TOKEN"),
      ("catalog", "DATABRICKS_CATALOG"),
      ("schema", "DATABRICKS_SCHEMA")]),
   ("s3",
     [("aws_access_key_id", "AWS_ACCESS_KEY_ID"),
      ("aws_secret_access_key", "AWS_SECRET_ACCESS_KEY"),
      ("aws_session_token", "AWS_SESSION_TOKEN"),
      ("region_name", "AWS_DEFAULT_REGION")])]

/-- `ConfigManager._get_env_key`:
`env_mappings.get(service, {}).get(key, f"{service.upper()}_{key.upper()}")`. -/
def get_env_key (service key : String) : String :=
  ((dictGet service env_mappings).getD []
    |> dictGet key).getD (strUpper service ++ "_" ++ strUpper key)

/-- `ConfigManager._get_credential_from_keychain`: `None` off macOS,
otherwise `keyring.get_password(service_name, key.lower())`, with any
lookup exception already folded into `w.keyring` returning `none`. -/
def get_credential_from_keychain (w : World) (key : String) : Option String :=
  if w.isMacos then w.keyring (strLower key) else none

/-- Tier 1 of `ConfigManager.get_config_value`:
`if function_config and key in function_config: return function_config[key]`.
`some v` means the tier hit and the call returns `v` (itself possibly
`None`); `none` means fall through (no mapping given, an empty — falsy —
dict, or the key absent). -/
def override_hit (function_config : Option FuncConfig) (key : String) :
    Option (Option String) :=
  match function_config with
  | some fc => if fc.isEmpty then none else dictGet key fc
  | none => none

/-- Tiers 2–4 of `ConfigManager.get_config_value`: environment variable
(non-empty), keychain (credentials only, non-empty), then the defaults
document `default_config.get(service, {}).get(key)`. -/
def env_chain (w : World) (service key : String) (is_credential : Bool) :
    Option String :=
  let env_key := get_env_key service key
  let env_value := w.env env_key
  if pyTruthy env_value then env_value
  else
    let keychain_value :=
      if is_credential then get_credential_from_keychain w env_key else none
    if pyTruthy keychain_value then keychain_value
    else dictGet key ((dictGet service (defaultConfigOf w)).getD [])

/-- `ConfigManager.get_config_value`: the four-tier priority lookup. -/
def get_config_value (w : World) (service key : String)
    (function_config : Option FuncConfig) (is_credential : Bool) :
    Option String :=
  match override_hit function_config key with
  | some v => v
  | none => env_chain w service key is_credential

/-! ## System identity provider (`system_info.get_current_user`) -/

/-- `system_info.get_current_user`: `getpass.getuser()`, then
`os.getlogin()`, then the first truthy of `USER`, `USERNAME`, `LOGNAME`,
then the `"unknown_user"` sentinel.  A tier's raising is `none`; a
successful call's value is returned even when empty. -/
def get_current_user (w : World) : String :=
  match w.getpassUser with
  | some u => u
  | none =>
    match w.osLogin with
    | some u => u
    | none =>
      if pyTruthy (w.env "USER") then (w.env "USER").getD ""
      else if pyTruthy (w.env "USERNAME") then (w.env "USERNAME").getD ""
      else if pyTruthy (w.env "LOGNAME") then (w.env "LOGNAME").getD ""
      else "unknown_user"

/-! ## ConfigManager per-backend aggregators -/

/-- The final comprehension of each aggregator:
`{k: v for k, v in result.items() if v is not None}`. -/
def stripAbsent (l : List (String × Option String)) :
    List (String × Option String) :=
  l.filter (fun p => p.2.isSome)

/-- `ConfigManager.get_snowflake_config`: `user` is assigned directly
(the `username` argument, or `get_current_user()` when it is `None`);
every other entry is tier-resolved; `None` entries are stripped. -/
def get_snowflake_config (w : World) (username : Option String)
    (config : Option FuncConfig) : List (String × Option String) :=
  let username := match username with
    | none => get_current_user w
    | some u => u
  stripAbsent
    [("user", some username),
     ("account", get_config_value w "snowflake" "account" config false),
     ("warehouse", get_config_value w "snowflake" "warehouse" config false),
     ("database", get_config_value w "snowflake" "database" config false),
     ("schema", get_config_value w "snowflake" "schema" config false),
     ("password", get_config_value w "snowflake" "password" config true),
     ("private_key_path",
       get_config_value w "snowflake" "private_key_path" config false),
     ("private_key_passphrase",
       get_config_value w "snowflake" "private_key_passphrase" config true),
     ("authenticator",
       get_config_value w "snowflake" "authenticator" config false)]

/-- `ConfigManager.get_databricks_config`. -/
def get_databricks_config (w : World) (config : Option FuncConfig) :
    List (String × Option String) :=
  stripAbsent
    [("server_hostname",
       get_config_value w "databricks" "server_hostname" config false),
     ("http_path", get_config_value w "databricks" "http_path" config false),
     ("access_token",
       get_config_value w "databricks" "access_token" config true),
     ("catalog", get_config_value w "databricks" "catalog" config false),
     ("schema", get_config_value w "databricks" "schema" config false)]

/-- `ConfigManager.get_s3_config`. -/
def get_s3_config (w : World) (config : Option FuncConfig) :
    List (String × Option String) :=
  stripAbsent
    [("aws_access_key_id",
       get_config_value w "s3" "aws_access_key_id" config true),
     ("aws_secret_access_key",
       get_config_value w "s3" "aws_secret_access_key" config true),
     ("aws_session_token",
       get_config_value w "s3" "aws_session_token" config true),
     ("region_name", get_config_value w "s3" "region_name" config false)]

/-! ## Connector required-parameter validation -/

/-- The error message `SnowflakeConnector.__init__` raises when `account`
is falsy. -/
def snowflakeAccountErrMsg : String :=
  "Snowflake account not found. Please set SNOWFLAKE_ACCOUNT environment variable or update config.yaml"

/-- The error message `SnowflakeConnector.__init__` raises when `account`
is present but `warehouse` is falsy. -/
def snowflakeWarehouseErrMsg : String :=
  "Snowflake warehouse not found. Please set SNOWFLAKE_WAREHOUSE environment variable or update config.yaml"

/-- The validation at the end of `SnowflakeConnector.__init__`: check
`account`, and only then `warehouse`, raising about the first falsy one.
The argument is the resolved (absent-stripped) configuration, so values
are strings and falsy means absent or empty. -/
def snowflakeValidate (cfg : List (String × String)) : Except String Unit :=
  if ¬ pyTruthy (dictGet "account" cfg) then .error snowflakeAccountErrMsg
  else if ¬ pyTruthy (dictGet "warehouse" cfg) then
    .error snowflakeWarehouseErrMsg
  else .ok ()

/-- `required_params` of `DatabricksConnector.connect`. -/
def databricksRequiredParams : List String :=
  ["server_hostname", "http_path", "access_token"]

/-- `missing_params = [p for p in required_params if not self.config.get(p)]`. -/
def databricksMissingParams (cfg : List (String × String)) : List String :=
  databricksRequiredParams.filter (fun p => ¬ pyTruthy (dictGet p cfg))

/-- The `ValueError` message of `DatabricksConnector.connect` (the Python
f-string renders the list with quoted elements; the element order and
content are what matters here). -/
def databricksErrMsg (missing : List String) : String :=
  "Missing required parameters: [" ++ String.intercalate ", " missing ++ "]"

/-- The validation step of `DatabricksConnector.connect`: one error naming
the whole list of missing required parameters. -/
def databricksValidate (cfg : List (String × String)) : Except String Unit :=
  let missing := databricksMissingParams cfg
  if missing.isEmpty then .ok () else .error (databricksErrMsg missing)

/-! ## CredentialManager (the simpler env/keychain-only resolver) -/

/-- `CredentialManager.get_credential`: environment variable
`key.upper()` if truthy, else on macOS `keyring.get_password(service_name,
key.lower())` (returned even when falsy; exceptions folded into
`w.keyring` as `none`), else `None`. -/
def cm_get_credential (w : World) (key : String) : Option String :=
  let env_value := w.env (strUpper key)
  if pyTruthy env_value then env_value
  else if w.isMacos then w.keyring (strLower key)
  else none

/-- Python `x or default` on an optional string: the default replaces
both `None` and `""`. -/
def pyOrStr (v : Option String) (d : String) : String :=
  match v with
  | some s => if s = "" then d else s
  | none => d

/-- `CredentialManager.get_databricks_credentials`: a dict literal with
all five keys; absent credentials are materialized as `None` (no
stripping). -/
def get_databricks_credentials (w : World) : List (String × Option String) :=
  [("server_hostname", cm_get_credential w "DATABRICKS_SERVER_HOSTNAME"),
   ("http_path", cm_get_credential w "DATABRICKS_HTTP_PATH"),
   ("access_token", cm_get_credential w "DATABRICKS_ACCESS_TOKEN"),
   ("catalog", cm_get_credential w "DATABRICKS_CATALOG"),
   ("schema", cm_get_credential w "DATABRICKS_SCHEMA")]

/-- `CredentialManager.get_s3_credentials`: `region_name` gets the
hardcoded `"us-east-1"` fallback via Python `or`. -/
def get_s3_credentials (w : World) : List (String × Option String) :=
  [("aws_access_key_id", cm_get_credential w "AWS_ACCESS_KEY_ID"),
   ("aws_secret_access_key", cm_get_credential w "AWS_SECRET_ACCESS_KEY"),
   ("aws_session_token", cm_get_credential w "AWS_SESSION_TOKEN"),
   ("region_name",
     some (pyOrStr (cm_get_credential w "AWS_DEFAULT_REGION") "us-east-1"))]

/-! ## push_config_to_env (`config_helper.py`)

The three per-service loops flattened in source order into one mapping
list `(service, config_key, env_key)`; the loop body sets the variable
when the config value is truthy and the variable is unset (or `override`
is given), recording it in `env_vars_set`. -/

/-- The (service, config key, environment variable) triples of the
`sf_mappings`, `db_mappings` and `s3_mappings` loops, in iteration
order. -/
def push_mappings : List (String × String × String) :=
  [("snowflake", "account", "SNOWFLAKE_ACCOUNT"),
   ("snowflake", "warehouse", "SNOWFLAKE_WAREHOUSE"),
   ("snowflake", "database", "SNOWFLAKE_DATABASE"),
   ("snowflake", "schema", "SNOWFLAKE_SCHEMA"),
   ("databricks", "server_hostname", "DATABRICKS_SERVER_HOSTNAME"),
   ("databricks", "http_path", "DATABRICKS_HTTP_PATH"),
   ("databricks", "catalog", "DATABRICKS_CATALOG"),
   ("databricks", "schema", "DATABRICKS_SCHEMA"),
   ("s3", "region_name", "AWS_DEFAULT_REGION")]

/-- Point update of an environment (`os.environ[env_key] = str(value)`). -/
def updateEnv (env : String → Option String) (k v : String) :
    String → Option String :=
  fun x => if x = k then some v else env x

/-- `value = config.get(service, {}).get(config_key)` for one loop
iteration of `push_config_to_env`, over a triple from `push_mappings`. -/
def push_value (cfg : Config) (m : String × String × String) : Option String :=
  dictGet m.2.1 ((dictGet m.1 cfg).getD [])

/-- One loop iteration of `push_config_to_env`:
`value = service_dict.get(config_key)`;
`if value and (env_key not in os.environ or override): set and record`.
Note `env_key not in os.environ` is false for a variable set to `""`. -/
def push_step (override : Bool) (cfg : Config)
    (st : (String → Option String) × List (String × String))
    (m : String × String × String) :
    (String → Option String) × List (String × String) :=
  match push_value cfg m with
  | some v =>
    if v ≠ "" ∧ ((st.1 m.2.2).isNone ∨ override = true) then
      (updateEnv st.1 m.2.2 v, st.2 ++ [(m.2.2, v)])
    else st
  | none => st

/-- `config_helper.push_config_to_env`: load the config (warnings and
the never-raised exception discarded), run the three loops, return the
updated environment and `env_vars_set`. -/
def push_config_to_env (fs : FileState) (override : Bool)
    (env : String → Option String) :
    (String → Option String) × List (String × String) :=
  let cfg := ((load_config fs).1.toOption).getD []
  push_mappings.foldl (push_step override cfg) (env, [])

/-! ## Shared helper lemmas -/

/-- Truthiness at the two `Option` constructors. -/
lemma pyTruthy_none : pyTruthy none = false := rfl

/-- Truthiness of a present string is its non-emptiness. -/
lemma pyTruthy_some (v : String) : pyTruthy (some v) = !decide (v = "") := by
  simp [pyTruthy]

/-- Members of an absent-stripped mapping have present values. -/
lemma mem_stripAbsent {l : List (String × Option String)}
    {p : String × Option String} (h : p ∈ stripAbsent l) : p.2 ≠ none := by
  unfold stripAbsent at h
  have := (List.mem_filter.mp h).2
  simpa [Option.isSome_iff_ne_none] using this

/-- `CredentialManager.get_credential` is `None` when the environment
variable is unset and the keychain entry is absent. -/
lemma cm_get_credential_eq_none (w : World) (key : String)
    (henv : w.env (strUpper key) = none)
    (hkr : w.keyring (strLower key) = none) :
    cm_get_credential w key = none := by
  unfold cm_get_credential
  rw [henv]
  cases w.isMacos <;> simp [pyTruthy, hkr]

/-! ## Concrete worlds used by witnesses and counterexamples -/

/-- A world with every external source empty (no environment variables,
no keychain, no defaults file; identity resolves to `alice`). -/
def wEmpty : World :=
  { env := fun _ => none, isMacos := false, keyring := fun _ => none,
    defaultFile := .missing, getpassUser := some "alice", osLogin := none }

/-- A macOS world in which all four tiers can serve `snowflake` values:
`SNOWFLAKE_ACCOUNT` in the environment, `snowflake_password` in the
keychain, `account`/`warehouse` in the defaults document. -/
def wAll : World :=
  { env := fun k => if k = "SNOWFLAKE_ACCOUNT" then some "acct-env" else none,
    isMacos := true,
    keyring := fun k =>
      if k = "snowflake_account" then some "acct-kc"
      else if k = "snowflake_password" then some "pw-kc" else none,
    defaultFile := .parsed
      [("snowflake", [("account", "acct-default"), ("warehouse", "WH_DEFAULT")])],
    getpassUser := some "alice", osLogin := none }

/-! ## C4 -/

/-- C4 counterexample: the Resolution Engine's own defaults load
(`ConfigManager._load_default_config`) on a file that exists but fails to
parse returns an empty mapping with ZERO warning emissions — not the
"exactly one warning" the claim asserts (only the standalone helper
`config_helper.load_config` warns). -/
theorem resolution_engine_load_warns_zero_not_once :
    load_default_config (FileState.malformed ":::not yaml") =
      (Except.ok [], 0) ∧ (0 : Nat) ≠ 1 := by
  exact ⟨rfl, by decide⟩

/-- C4 (amended): every defaults-document load is total and never
raises: a nonexistent file yields an empty mapping with no warning for
both loaders; a file that exists but fails to parse yields an empty
mapping and no raised error for both, with exactly one warning emission
from the helper `config_helper.load_config` and zero (silent failure)
from the Resolution Engine's internal `_load_default_config`. -/
theorem defaults_loaders_resilience :
    (load_default_config FileState.missing = (Except.ok [], 0)) ∧
    (∀ blob, load_default_config (FileState.malformed blob) =
      (Except.ok [], 0)) ∧
    (load_config FileState.missing = (Except.ok [], 0)) ∧
    (∀ blob, load_config (FileState.malformed blob) = (Except.ok [], 1)) :=
  ⟨rfl, fun _ => rfl, rfl, fun _ => rfl⟩

/-! ## C5 -/

/-- C5: none of the three per-backend aggregators ever returns a mapping
entry whose value is `None`: absent parameters are stripped entirely. -/
theorem aggregators_never_materialize_none (w : World)
    (username : Option String) (config : Option FuncConfig)
    (p : String × Option String) :
    (p ∈ get_snowflake_config w username config → p.2 ≠ none) ∧
    (p ∈ get_databricks_config w config → p.2 ≠ none) ∧
    (p ∈ get_s3_config w config → p.2 ≠ none) := by
  refine ⟨fun h => ?_, fun h => ?_, fun h => ?_⟩
  · exact mem_stripAbsent (by simpa [get_snowflake_config] using h)
  · exact mem_stripAbsent (by simpa [get_databricks_config] using h)
  · exact mem_stripAbsent (by simpa [get_s3_config] using h)

/-- C5 witness: at the concrete world `wAll` the `user` entry is a member
of the snowflake aggregate, and the implication instantiates to it. -/
theorem aggregators_never_materialize_none_witness :
    ("user", (some "alice" : Option String)) ∈
      get_snowflake_config wAll none none ∧
    (some "alice" : Option String) ≠ none :=
  ⟨by decide,
   (aggregators_never_materialize_none wAll none none
     ("user", some "alice")).1 (by decide)⟩

/-! ## C10 -/

/-- C10: the simpler resolver's `get_databricks_credentials` does not
strip absent entries: with all five Databricks environment variables
unset and the keychain yielding nothing, the returned mapping contains
all five keys, each materialized with value `None`. -/
theorem cm_databricks_credentials_materialize_none (w : World)
    (h1 : w.env "DATABRICKS_SERVER_HOSTNAME" = none)
    (h2 : w.env "DATABRICKS_HTTP_PATH" = none)
    (h3 : w.env "DATABRICKS_ACCESS_TOKEN" = none)
    (h4 : w.env "DATABRICKS_CATALOG" = none)
    (h5 : w.env "DATABRICKS_SCHEMA" = none)
    (k1 : w.keyring "databricks_server_hostname" = none)
    (k2 : w.keyring "databricks_http_path" = none)
    (k3 : w.keyring "databricks_access_token" = none)
    (k4 : w.keyring "databricks_catalog" = none)
    (k5 : w.keyring "databricks_schema" = none) :
    get_databricks_credentials w =
      [("server_hostname", none), ("http_path", none),
       ("access_token", none), ("catalog", none), ("schema", none)] := by
  unfold get_databricks_credentials
  rw [cm_get_credential_eq_none w "DATABRICKS_SERVER_HOSTNAME" h1 k1,
      cm_get_credential_eq_none w "DATABRICKS_HTTP_PATH" h2 k2,
      cm_get_credential_eq_none w "DATABRICKS_ACCESS_TOKEN" h3 k3,
      cm_get_credential_eq_none w "DATABRICKS_CATALOG" h4 k4,
      cm_get_credential_eq_none w "DATABRICKS_SCHEMA" h5 k5]

/-- C10 witness: the hypotheses hold at the all-empty world `wEmpty`. -/
theorem cm_databricks_credentials_materialize_none_witness :
    get_databricks_credentials wEmpty =
      [("server_hostname", none), ("http_path", none),
       ("access_token", none), ("catalog", none), ("schema", none)] :=
  cm_databricks_credentials_materialize_none wEmpty
    rfl rfl rfl rfl rfl rfl rfl rfl rfl rfl

/-! ## C2 -/

/-- C2: presence of the key in the override mapping, not truthiness,
governs tier 1: any present override value (even `""` or `None`) is
returned immediately; in particular `{key: ""}` yields `""` regardless of
the environment.  Tiers 2–4 instead require a truthy value: a set-but-empty
environment variable is skipped and the defaults value is returned. -/
theorem override_presence_not_truthiness :
    (∀ (w : World) (s k : String) (fc : FuncConfig) (v : Option String)
        (b : Bool),
      dictGet k fc = some v → get_config_value w s k (some fc) b = v) ∧
    (∀ (w : World) (s k : String) (b : Bool),
      get_config_value w s k (some [(k, some "")]) b = some "") ∧
    (∀ (w : World) (s k dv : String),
      w.env (get_env_key s k) = some "" →
      dictGet k ((dictGet s (defaultConfigOf w)).getD []) = some dv →
      get_config_value w s k none false = some dv) := by
  refine ⟨?_, ?_, ?_⟩
  · intro w s k fc v b h
    have hfc : fc.isEmpty = false := by
      cases fc with
      | nil => simp [dictGet] at h
      | cons hd tl => rfl
    simp [get_config_value, override_hit, hfc, h]
  · intro w s k b
    simp [get_config_value, override_hit, dictGet]
  · intro w s k dv henv hdef
    simp [get_config_value, override_hit, env_chain, pyTruthy, henv, hdef]

/-- C2 witness: at `wAll`, an override `{account: ""}` returns `""` and
not the environment's `acct-env`; and with `SNOWFLAKE_ACCOUNT` set to `""`
the defaults value `acct-default` is returned. -/
theorem override_presence_not_truthiness_witness :
    get_config_value wAll "snowflake" "account"
      (some [("account", some "")]) false = some "" ∧
    get_config_value
      { wAll with env := fun k =>
          if k = "SNOWFLAKE_ACCOUNT" then some "" else none }
      "snowflake" "account" none false = some "acct-default" :=
  ⟨override_presence_not_truthiness.2.1 wAll "snowflake" "account" false,
   override_presence_not_truthiness.2.2
     { wAll with env := fun k =>
         if k = "SNOWFLAKE_ACCOUNT" then some "" else none }
     "snowflake" "account" "acct-default" (by decide) (by decide)⟩

/-! ## C1 -/

/-- C1: the four-tier priority cascade of `get_config_value`: a present
override key wins outright; otherwise a non-empty environment variable;
otherwise (credential lookups) a non-empty secret-store value; otherwise
the defaults-document entry; and with every tier absent the result is
`none`. -/
theorem get_config_value_priority_order :
    (∀ (w : World) (s k : String) (fc : FuncConfig) (b : Bool) (v : String),
      dictGet k fc = some (some v) →
      get_config_value w s k (some fc) b = some v) ∧
    (∀ (w : World) (s k : String) (oc : Option FuncConfig) (b : Bool)
        (ev : String),
      override_hit oc k = none →
      w.env (get_env_key s k) = some ev → ev ≠ "" →
      get_config_value w s k oc b = some ev) ∧
    (∀ (w : World) (s k : String) (oc : Option FuncConfig) (kv : String),
      override_hit oc k = none →
      pyTruthy (w.env (get_env_key s k)) = false →
      get_credential_from_keychain w (get_env_key s k) = some kv → kv ≠ "" →
      get_config_value w s k oc true = some kv) ∧
    (∀ (w : World) (s k : String) (oc : Option FuncConfig) (b : Bool),
      override_hit oc k = none →
      pyTruthy (w.env (get_env_key s k)) = false →
      pyTruthy (get_credential_from_keychain w (get_env_key s k)) = false →
      get_config_value w s k oc b =
        dictGet k ((dictGet s (defaultConfigOf w)).getD [])) ∧
    (∀ (w : World) (s k : String) (oc : Option FuncConfig) (b : Bool),
      override_hit oc k = none →
      pyTruthy (w.env (get_env_key s k)) = false →
      pyTruthy (get_credential_from_keychain w (get_env_key s k)) = false →
      dictGet k ((dictGet s (defaultConfigOf w)).getD []) = none →
      get_config_value w s k oc b = none) := by
  have tier4 : ∀ (w : World) (s k : String) (oc : Option FuncConfig) (b : Bool),
      override_hit oc k = none →
      pyTruthy (w.env (get_env_key s k)) = false →
      pyTruthy (get_credential_from_keychain w (get_env_key s k)) = false →
      get_config_value w s k oc b =
        dictGet k ((dictGet s (defaultConfigOf w)).getD []) := by
    intro w s k oc b h0 henv hkc
    cases b <;>
      simp [get_config_value, env_chain, h0, henv, hkc, pyTruthy_none]
  refine ⟨?_, ?_, ?_, tier4, ?_⟩
  · intro w s k fc b v h
    have hfc : fc.isEmpty = false := by
      cases fc with
      | nil => simp [dictGet] at h
      | cons hd tl => rfl
    simp [get_config_value, override_hit, hfc, h]
  · intro w s k oc b ev h0 henv hne
    simp [get_config_value, env_chain, h0, henv, pyTruthy_some, hne]
  · intro w s k oc kv h0 henv hkc hne
    simp [get_config_value, env_chain, h0, henv, hkc, pyTruthy_some, hne]
  · intro w s k oc b h0 henv hkc hdef
    rw [tier4 w s k oc b h0 henv hkc, hdef]

/-- C1 witness: at `wAll`, the cascade is exercised tier by tier:
override beats the environment for `account`; without an override the
environment's `acct-env` is returned; the credential key `password` comes
from the keychain; `warehouse` falls through to the defaults document;
and `database`, absent everywhere, resolves to `none`. -/
theorem get_config_value_priority_order_witness :
    get_config_value wAll "snowflake" "account"
      (some [("account", some "acct-ov")]) false = some "acct-ov" ∧
    get_config_value wAll "snowflake" "account" none false = some "acct-env" ∧
    get_config_value wAll "snowflake" "password" none true = some "pw-kc" ∧
    get_config_value wAll "snowflake" "warehouse" none false =
      some "WH_DEFAULT" ∧
    get_config_value wAll "snowflake" "database" none false = none :=
  ⟨get_config_value_priority_order.1 wAll "snowflake" "account"
     [("account", some "acct-ov")] false "acct-ov" (by decide),
   get_config_value_priority_order.2.1 wAll "snowflake" "account" none false
     "acct-env" rfl (by decide) (by decide),
   get_config_value_priority_order.2.2.1 wAll "snowflake" "password" none
     "pw-kc" rfl (by decide) (by decide) (by decide),
   (get_config_value_priority_order.2.2.2.1 wAll "snowflake" "warehouse" none
     false rfl (by decide) (by decide)).trans (by decide),
   get_config_value_priority_order.2.2.2.2 wAll "snowflake" "database" none
     false rfl (by decide) (by decide) (by decide)⟩

/-! ## C3 -/

/-- C3: with `is_credential = false` the secret store is never consulted:
the result of `get_config_value` is unchanged under arbitrary changes to
the keychain contents and the platform flag, so a value present only in
the secret store can never be returned.  When it is consulted
(`is_credential = true`, override and environment silent), the key used
is the resolved environment-variable name, lower-cased. -/
theorem secret_store_gating :
    (∀ (w₁ w₂ : World) (s k : String) (oc : Option FuncConfig),
      w₁.env = w₂.env → w₁.defaultFile = w₂.defaultFile →
      get_config_value w₁ s k oc false = get_config_value w₂ s k oc false) ∧
    (∀ (w : World) (s k kv : String) (oc : Option FuncConfig),
      override_hit oc k = none →
      pyTruthy (w.env (get_env_key s k)) = false →
      w.isMacos = true →
      w.keyring (strLower (get_env_key s k)) = some kv → kv ≠ "" →
      get_config_value w s k oc true = some kv) := by
  constructor
  · intro w₁ w₂ s k oc henv hdf
    unfold get_config_value
    cases h : override_hit oc k with
    | some v => rfl
    | none => simp [env_chain, defaultConfigOf, henv, hdf]
  · intro w s k kv oc h0 henv hmac hkr hne
    simp [get_config_value, env_chain, get_credential_from_keychain,
      h0, henv, hmac, hkr, pyTruthy_some, hne]

/-- C3 witness: `wEmpty` and a copy with a keychain entry for
`snowflake_account` agree on a non-credential `account` lookup; and at
`wAll` the credential `password` lookup reads keychain key
`snowflake_password` (the lower-cased `SNOWFLAKE_PASSWORD`). -/
theorem secret_store_gating_witness :
    get_config_value wEmpty "snowflake" "account" none false =
      get_config_value
        { wEmpty with
          isMacos := true
          keyring := fun k =>
            if k = "snowflake_account" then some "acct-kc" else none }
        "snowflake" "account" none false ∧
    get_config_value wAll "snowflake" "password" none true = some "pw-kc" :=
  ⟨secret_store_gating.1 wEmpty
     { wEmpty with
       isMacos := true
       keyring := fun k =>
         if k = "snowflake_account" then some "acct-kc" else none }
     "snowflake" "account" none rfl rfl,
   secret_store_gating.2 wAll "snowflake" "password" "pw-kc" none
     rfl (by decide) rfl (by decide) (by decide)⟩

/-! ## C6 -/

/-- The `user` entry of the snowflake aggregate with no explicit username
is always present and equals the identity provider's current user. -/
lemma dictGet_user_snowflake (w : World) (config : Option FuncConfig) :
    dictGet "user" (get_snowflake_config w none config) =
      some (some (get_current_user w)) := by
  simp [get_snowflake_config, stripAbsent, List.filter_cons, dictGet]

/-- The identity provider reads only `getpass.getuser()`, `os.getlogin()`
and the `USER`/`USERNAME`/`LOGNAME` environment variables. -/
lemma get_current_user_congr (w₁ w₂ : World)
    (h1 : w₁.getpassUser = w₂.getpassUser) (h2 : w₁.osLogin = w₂.osLogin)
    (h3 : w₁.env "USER" = w₂.env "USER")
    (h4 : w₁.env "USERNAME" = w₂.env "USERNAME")
    (h5 : w₁.env "LOGNAME" = w₂.env "LOGNAME") :
    get_current_user w₁ = get_current_user w₂ := by
  unfold get_current_user
  rw [h1, h2, h3, h4, h5]

/-- C6: with `username = None`, the snowflake aggregate's `user` entry is
always present and equals `get_current_user()`, assigned directly: it
depends only on the identity sources (`getpass`, `os.getlogin`,
`USER`/`USERNAME`/`LOGNAME`), never on `SNOWFLAKE_USER`, the secret
store, the defaults document, or the override mapping. -/
theorem snowflake_user_is_direct_assignment :
    (∀ (w : World) (config : Option FuncConfig),
      dictGet "user" (get_snowflake_config w none config) =
        some (some (get_current_user w))) ∧
    (∀ (w₁ w₂ : World) (c₁ c₂ : Option FuncConfig),
      w₁.getpassUser = w₂.getpassUser → w₁.osLogin = w₂.osLogin →
      w₁.env "USER" = w₂.env "USER" →
      w₁.env "USERNAME" = w₂.env "USERNAME" →
      w₁.env "LOGNAME" = w₂.env "LOGNAME" →
      dictGet "user" (get_snowflake_config w₁ none c₁) =
        dictGet "user" (get_snowflake_config w₂ none c₂)) :=
  ⟨dictGet_user_snowflake,
   fun w₁ w₂ c₁ c₂ h1 h2 h3 h4 h5 => by
     rw [dictGet_user_snowflake, dictGet_user_snowflake,
       get_current_user_congr w₁ w₂ h1 h2 h3 h4 h5]⟩

/-- C6 witness: setting `SNOWFLAKE_USER=bob`, filling the keychain and
the defaults document, and passing an override `{user: "carol"}` leave
the resolved `user` equal to the identity provider's `alice`. -/
theorem snowflake_user_is_direct_assignment_witness :
    dictGet "user" (get_snowflake_config wAll none none) =
      some (some "alice") ∧
    dictGet "user"
      (get_snowflake_config
        { wAll with env := fun k =>
            if k = "SNOWFLAKE_USER" then some "bob" else wAll.env k }
        none (some [("user", some "carol")])) =
      dictGet "user" (get_snowflake_config wAll none none) :=
  ⟨snowflake_user_is_direct_assignment.1 wAll none,
   snowflake_user_is_direct_assignment.2
     { wAll with env := fun k =>
         if k = "SNOWFLAKE_USER" then some "bob" else wAll.env k }
     wAll (some [("user", some "carol")]) none
     rfl rfl (by decide) (by decide) (by decide)⟩

/-! ## C7 -/

/-- C7 counterexample: with both `account` and `warehouse` missing (the
empty resolved configuration), `SnowflakeConnector.__init__` raises the
account-only error — the very same error it raises when `warehouse` is
present — so the single error raised cannot be naming all missing
required parameters at once. -/
theorem snowflake_validation_not_all_at_once :
    snowflakeValidate [] = Except.error snowflakeAccountErrMsg ∧
    snowflakeValidate [("warehouse", "WH_X")] =
      Except.error snowflakeAccountErrMsg ∧
    snowflakeAccountErrMsg ≠ snowflakeWarehouseErrMsg := by
  refine ⟨rfl, rfl, by decide⟩

/-- C7 (amended): only the compute backend (Databricks) validates with a
single error naming all missing required parameters at once: its missing
list collects exactly the required parameters without a truthy value and
the raised error names that whole list.  The warehouse backend
(Snowflake) instead validates one at a time: any falsy `account` yields
the account error alone (even when `warehouse` is also missing), and a
missing `warehouse` is reported only once `account` is present. -/
theorem connector_validation_missing_params :
    (∀ (cfg : List (String × String)) (p : String),
      p ∈ databricksRequiredParams → pyTruthy (dictGet p cfg) = false →
      p ∈ databricksMissingParams cfg) ∧
    (∀ (cfg : List (String × String)) (p : String),
      p ∈ databricksMissingParams cfg →
      p ∈ databricksRequiredParams ∧ pyTruthy (dictGet p cfg) = false) ∧
    (∀ cfg : List (String × String),
      databricksMissingParams cfg ≠ [] →
      databricksValidate cfg =
        Except.error (databricksErrMsg (databricksMissingParams cfg))) ∧
    (∀ cfg : List (String × String),
      pyTruthy (dictGet "account" cfg) = false →
      snowflakeValidate cfg = Except.error snowflakeAccountErrMsg) ∧
    (∀ cfg : List (String × String),
      pyTruthy (dictGet "account" cfg) = true →
      pyTruthy (dictGet "warehouse" cfg) = false →
      snowflakeValidate cfg = Except.error snowflakeWarehouseErrMsg) := by
  refine ⟨?_, ?_, ?_, ?_, ?_⟩
  · intro cfg p hreq hval
    unfold databricksMissingParams
    exact List.mem_filter.mpr ⟨hreq, by simp [hval]⟩
  · intro cfg p hmem
    unfold databricksMissingParams at hmem
    have := List.mem_filter.mp hmem
    exact ⟨this.1, by simpa using this.2⟩
  · intro cfg hne
    unfold databricksValidate
    simp [List.isEmpty_iff, hne]
  · intro cfg h
    simp [snowflakeValidate, h]
  · intro cfg h1 h2
    simp [snowflakeValidate, h1, h2]

/-- C7 amended witness: with everything missing, the Databricks error
names all three required parameters; with `account` missing (whether or
not `warehouse` is present) Snowflake names only `account`. -/
theorem connector_validation_missing_params_witness :
    databricksValidate [] =
      Except.error
        (databricksErrMsg ["server_hostname", "http_path", "access_token"]) ∧
    ("access_token" ∈ databricksMissingParams [("http_path", "p")]) ∧
    snowflakeValidate [("warehouse", "WH_X")] =
      Except.error snowflakeAccountErrMsg ∧
    snowflakeValidate [("account", "A")] =
      Except.error snowflakeWarehouseErrMsg :=
  ⟨(connector_validation_missing_params.2.2.1 [] (by decide)).trans
     (by rfl),
   connector_validation_missing_params.1 [("http_path", "p")] "access_token"
     (by decide) (by decide),
   connector_validation_missing_params.2.2.2.1 [("warehouse", "WH_X")]
     (by decide),
   connector_validation_missing_params.2.2.2.2 [("account", "A")]
     (by decide) (by decide)⟩

/-! ## C9 -/

/-- A macOS world whose environment is empty but whose keychain holds a
region under the lower-cased key `aws_default_region`. -/
def wRegionKc : World :=
  { env := fun _ => none, isMacos := true,
    keyring := fun k =>
      if k = "aws_default_region" then some "eu-west-1" else none,
    defaultFile := .missing, getpassUser := some "alice", osLogin := none }

/-- C9 counterexample: `AWS_DEFAULT_REGION` is unset in `wRegionKc`, yet
`CredentialManager.get_s3_credentials` returns the keychain's
`eu-west-1`, not the hardcoded `us-east-1`: `get_credential` consults the
keychain before the literal fallback applies, so "environment unset or
empty" alone does not force `us-east-1`. -/
theorem cm_s3_region_not_always_us_east_1 :
    wRegionKc.env "AWS_DEFAULT_REGION" = none ∧
    dictGet "region_name" (get_s3_credentials wRegionKc) =
      some (some "eu-west-1") ∧
    (some (some "eu-west-1") : Option (Option String)) ≠
      some (some "us-east-1") := by
  refine ⟨rfl, by decide, by decide⟩

/-- C9 (amended): the hardcoded `"us-east-1"` fallback lives only in the
simpler credential-only resolver, and applies there when neither the
environment nor the secret store supplies a non-empty region; the tiered
`get_s3_config` has no such literal: it contains a `region_name` entry
exactly when some tier resolves one, and omits the key entirely
otherwise. -/
theorem s3_region_fallback_only_in_simple_resolver :
    (∀ w : World,
      pyTruthy (w.env "AWS_DEFAULT_REGION") = false →
      (w.isMacos = true → pyTruthy (w.keyring "aws_default_region") = false) →
      dictGet "region_name" (get_s3_credentials w) =
        some (some "us-east-1")) ∧
    (∀ (w : World) (config : Option FuncConfig),
      get_config_value w "s3" "region_name" config false = none →
      dictGet "region_name" (get_s3_config w config) = none) ∧
    (∀ (w : World) (config : Option FuncConfig) (r : String),
      get_config_value w "s3" "region_name" config false = some r →
      dictGet "region_name" (get_s3_config w config) = some (some r)) := by
  refine ⟨?_, ?_, ?_⟩
  · intro w henv hkc
    have hcred : pyTruthy (cm_get_credential w "AWS_DEFAULT_REGION") = false := by
      unfold cm_get_credential
      rw [show strUpper "AWS_DEFAULT_REGION" = "AWS_DEFAULT_REGION" from rfl,
          show strLower "AWS_DEFAULT_REGION" = "aws_default_region" from rfl]
      cases hm : w.isMacos with
      | false => simp [henv, pyTruthy_none]
      | true => simp [henv, hkc hm]
    unfold get_s3_credentials
    rcases hv : cm_get_credential w "AWS_DEFAULT_REGION" with _ | v
    · simp [dictGet, pyOrStr]
    · rw [hv] at hcred
      have : v = "" := by simpa [pyTruthy_some] using hcred
      subst this
      simp [dictGet, pyOrStr]
  · intro w config h
    unfold get_s3_config stripAbsent
    rcases h1 : get_config_value w "s3" "aws_access_key_id" config true
        with _ | v1 <;>
    rcases h2 : get_config_value w "s3" "aws_secret_access_key" config true
        with _ | v2 <;>
    rcases h3 : get_config_value w "s3" "aws_session_token" config true
        with _ | v3 <;>
    simp [h, List.filter_cons, dictGet]
  · intro w config r h
    unfold get_s3_config stripAbsent
    rcases h1 : get_config_value w "s3" "aws_access_key_id" config true
        with _ | v1 <;>
    rcases h2 : get_config_value w "s3" "aws_secret_access_key" config true
        with _ | v2 <;>
    rcases h3 : get_config_value w "s3" "aws_session_token" config true
        with _ | v3 <;>
    simp [h, List.filter_cons, dictGet]

/-- C9 amended witness: in the all-empty world the simple resolver falls
back to `us-east-1` while the tiered aggregator omits `region_name`; with
a defaults entry, the tiered aggregator carries it. -/
theorem s3_region_fallback_only_in_simple_resolver_witness :
    dictGet "region_name" (get_s3_credentials wEmpty) =
      some (some "us-east-1") ∧
    dictGet "region_name" (get_s3_config wEmpty none) = none ∧
    dictGet "region_name"
      (get_s3_config
        { wEmpty with
          defaultFile := .parsed [("s3", [("region_name", "us-west-2")])] }
        none) = some (some "us-west-2") :=
  ⟨s3_region_fallback_only_in_simple_resolver.1 wEmpty (by decide)
     (fun h => by simp [wEmpty] at h),
   s3_region_fallback_only_in_simple_resolver.2.1 wEmpty none (by decide),
   s3_region_fallback_only_in_simple_resolver.2.2
     { wEmpty with
       defaultFile := .parsed [("s3", [("region_name", "us-west-2")])] }
     none "us-west-2" (by decide)⟩

/-! ## C8 -/

/-- `push_step` when the config value is absent: no-op. -/
lemma push_step_none (ov : Bool) (cfg : Config)
    (st : (String → Option String) × List (String × String))
    (m : String × String × String) (h : push_value cfg m = none) :
    push_step ov cfg st m = st := by
  unfold push_step
  rw [h]

/-- `push_step` when the config value is present: the guarded update. -/
lemma push_step_some (ov : Bool) (cfg : Config)
    (st : (String → Option String) × List (String × String))
    (m : String × String × String) (v : String)
    (h : push_value cfg m = some v) :
    push_step ov cfg st m =
      if v ≠ "" ∧ ((st.1 m.2.2).isNone ∨ ov = true) then
        (updateEnv st.1 m.2.2 v, st.2 ++ [(m.2.2, v)])
      else st := by
  unfold push_step
  rw [h]

/-- One push step leaves every other environment variable unchanged. -/
lemma push_step_apply_ne (ov : Bool) (cfg : Config)
    (st : (String → Option String) × List (String × String))
    (m : String × String × String) (k : String) (hk : k ≠ m.2.2) :
    (push_step ov cfg st m).1 k = st.1 k := by
  cases hv : push_value cfg m with
  | none => rw [push_step_none ov cfg st m hv]
  | some v =>
    rw [push_step_some ov cfg st m v hv]
    split
    · simp [updateEnv, hk]
    · rfl

/-- A push step never unsets a variable. -/
lemma push_step_isSome (ov : Bool) (cfg : Config)
    (st : (String → Option String) × List (String × String))
    (m : String × String × String) (k : String)
    (h : (st.1 k).isSome = true) :
    ((push_step ov cfg st m).1 k).isSome = true := by
  by_cases hk : k = m.2.2
  · subst hk
    cases hv : push_value cfg m with
    | none => rw [push_step_none ov cfg st m hv]; exact h
    | some v =>
      rw [push_step_some ov cfg st m v hv]
      split
      · simp [updateEnv]
      · exact h
  · rw [push_step_apply_ne ov cfg st m k hk]
    exact h

/-- The whole push loop never unsets a variable. -/
lemma push_fold_isSome (ov : Bool) (cfg : Config)
    (l : List (String × String × String)) (k : String) :
    ∀ st : (String → Option String) × List (String × String),
      (st.1 k).isSome = true →
      ((l.foldl (push_step ov cfg) st).1 k).isSome = true := by
  induction l with
  | nil => exact fun st h => h
  | cons m rest ih =>
    intro st h
    rw [List.foldl_cons]
    exact ih _ (push_step_isSome ov cfg st m k h)

/-- Without `override`, the push loop never changes an already-set
variable's value. -/
lemma push_fold_preserves_value (cfg : Config)
    (l : List (String × String × String)) (k vk : String) :
    ∀ st : (String → Option String) × List (String × String),
      st.1 k = some vk →
      (l.foldl (push_step false cfg) st).1 k = some vk := by
  induction l with
  | nil => exact fun st h => h
  | cons m rest ih =>
    intro st h
    rw [List.foldl_cons]
    apply ih
    by_cases hk : k = m.2.2
    · subst hk
      cases hpv : push_value cfg m with
      | none => rw [push_step_none false cfg st m hpv]; exact h
      | some v =>
        rw [push_step_some false cfg st m v hpv]
        split
        · rename_i hc
          exfalso
          rcases hc with ⟨hvne, hor⟩
          rcases hor with hnone | hov
          · rw [h] at hnone
            simp at hnone
          · simp at hov
        · exact h
    · rw [push_step_apply_ne false cfg st m k hk]
      exact h

/-- After one pass of the loop, every mapped variable whose config value
is truthy is set (it either was set already or was just filled). -/
lemma push_fold_sets_truthy (ov : Bool) (cfg : Config)
    {l : List (String × String × String)} {m : String × String × String}
    (hm : m ∈ l) (hv : pyTruthy (push_value cfg m) = true) :
    ∀ st : (String → Option String) × List (String × String),
      ((l.foldl (push_step ov cfg) st).1 m.2.2).isSome = true := by
  induction hm with
  | head rest =>
    intro st
    rw [List.foldl_cons]
    apply push_fold_isSome
    cases hpv : push_value cfg m with
    | none => rw [hpv] at hv; simp [pyTruthy_none] at hv
    | some v =>
      have hvne : v ≠ "" := by
        rw [hpv] at hv
        simpa [pyTruthy_some] using hv
      rw [push_step_some ov cfg st m v hpv]
      split
      · simp [updateEnv]
      · rename_i hc
        rcases hst : st.1 m.2.2 with _ | u
        · exact absurd ⟨hvne, Or.inl (by simp [hst])⟩ hc
        · simp [hst]
  | tail m' hmem ih =>
    intro st
    rw [List.foldl_cons]
    exact ih _

/-- Without `override`, a pass of the loop in which every truthy-valued
mapped variable is already set is a no-op (it sets nothing at all). -/
lemma push_fold_noop (cfg : Config) (l : List (String × String × String)) :
    ∀ st : (String → Option String) × List (String × String),
      (∀ m ∈ l, pyTruthy (push_value cfg m) = true →
        (st.1 m.2.2).isSome = true) →
      l.foldl (push_step false cfg) st = st := by
  induction l with
  | nil => exact fun st _ => rfl
  | cons m rest ih =>
    intro st h
    have hstep : push_step false cfg st m = st := by
      cases hpv : push_value cfg m with
      | none => exact push_step_none false cfg st m hpv
      | some v =>
        rw [push_step_some false cfg st m v hpv]
        split
        · rename_i hc
          exfalso
          rcases hc with ⟨hvne, hor⟩
          have hsome := h m (List.mem_cons_self m rest)
            (by rw [hpv]; simp [pyTruthy_some, hvne])
          rcases hor with hnone | hov
          · rw [Option.isNone_iff_eq_none] at hnone
            rw [hnone] at hsome
            simp at hsome
          · simp at hov
        · rfl
    rw [List.foldl_cons, hstep]
    exact ih st (fun m' hm' hv' => h m' (List.mem_cons_of_mem m hm') hv')

/-- Variables outside a block of mappings are untouched by it. -/
lemma push_fold_apply_notin (ov : Bool) (cfg : Config)
    (l : List (String × String × String)) (k : String) :
    ∀ st : (String → Option String) × List (String × String),
      (∀ m ∈ l, m.2.2 ≠ k) →
      (l.foldl (push_step ov cfg) st).1 k = st.1 k := by
  induction l with
  | nil => exact fun st _ => rfl
  | cons m rest ih =>
    intro st h
    rw [List.foldl_cons]
    rw [ih _ (fun m' hm' => h m' (List.mem_cons_of_mem m hm'))]
    exact push_step_apply_ne ov cfg st m k
      (Ne.symm (h m (List.mem_cons_self m rest)))

/-- Without `override`, one pass fills a previously-unset mapped variable
with its truthy config value (environment-variable names assumed
pairwise distinct, as they are in `push_mappings`). -/
lemma push_fold_sets_unset (cfg : Config)
    {l : List (String × String × String)} {m : String × String × String}
    (hm : m ∈ l) :
    ∀ (st : (String → Option String) × List (String × String)) (v : String),
      (l.map (fun x => x.2.2)).Nodup →
      st.1 m.2.2 = none → push_value cfg m = some v → v ≠ "" →
      (l.foldl (push_step false cfg) st).1 m.2.2 = some v := by
  induction hm with
  | head rest =>
    intro st v hnd hst hpv hv
    rw [List.map_cons, List.nodup_cons] at hnd
    have hnotin : ∀ m' ∈ rest, m'.2.2 ≠ m.2.2 := by
      intro m' hm' heq
      exact hnd.1 (List.mem_map.mpr ⟨m', hm', heq⟩)
    rw [List.foldl_cons,
        push_fold_apply_notin false cfg rest m.2.2 _ hnotin,
        push_step_some false cfg st m v hpv]
    split
    · simp [updateEnv]
    · rename_i hc
      exact absurd ⟨hv, Or.inl (by simp [hst])⟩ hc
  | tail m' hmem ih =>
    intro st v hnd hst hpv hv
    rw [List.map_cons, List.nodup_cons] at hnd
    have hne : m.2.2 ≠ m'.2.2 := by
      intro heq
      exact hnd.1 (List.mem_map.mpr ⟨m, hmem, heq⟩)
    rw [List.foldl_cons]
    apply ih _ v hnd.2
    · rw [push_step_apply_ne false cfg st m' m.2.2 hne]
      exact hst
    · exact hpv
    · exact hv

/-- With `override`, one pass always overwrites a mapped variable that
has a truthy config value. -/
lemma push_fold_override_sets (cfg : Config)
    {l : List (String × String × String)} {m : String × String × String}
    (hm : m ∈ l) :
    ∀ (st : (String → Option String) × List (String × String)) (v : String),
      (l.map (fun x => x.2.2)).Nodup →
      push_value cfg m = some v → v ≠ "" →
      (l.foldl (push_step true cfg) st).1 m.2.2 = some v := by
  induction hm with
  | head rest =>
    intro st v hnd hpv hv
    rw [List.map_cons, List.nodup_cons] at hnd
    have hnotin : ∀ m' ∈ rest, m'.2.2 ≠ m.2.2 := by
      intro m' hm' heq
      exact hnd.1 (List.mem_map.mpr ⟨m', hm', heq⟩)
    rw [List.foldl_cons,
        push_fold_apply_notin true cfg rest m.2.2 _ hnotin,
        push_step_some true cfg st m v hpv]
    split
    · simp [updateEnv]
    · rename_i hc
      exact absurd ⟨hv, Or.inr rfl⟩ hc
  | tail m' hmem ih =>
    intro st v hnd hpv hv
    rw [List.map_cons, List.nodup_cons] at hnd
    rw [List.foldl_cons]
    exact ih _ v hnd.2 hpv hv

/-- C8: `push_config_to_env` is idempotent per key: a second pass without
`override` is a no-op on the environment (it sets nothing); the first
pass fills each previously-unset mapped variable that has a truthy
defaults value; without `override` an already-set variable is never
changed; and with `override := true` every mapped variable with a truthy
defaults value is overwritten to it. -/
theorem push_config_to_env_idempotent :
    (∀ (fs : FileState) (env : String → Option String),
      push_config_to_env fs false (push_config_to_env fs false env).1 =
        ((push_config_to_env fs false env).1, [])) ∧
    (∀ (fs : FileState) (env : String → Option String)
        (m : String × String × String) (v : String),
      m ∈ push_mappings → env m.2.2 = none →
      push_value (((load_config fs).1.toOption).getD []) m = some v →
      v ≠ "" →
      (push_config_to_env fs false env).1 m.2.2 = some v) ∧
    (∀ (fs : FileState) (env : String → Option String) (k vk : String),
      env k = some vk →
      (push_config_to_env fs false env).1 k = some vk) ∧
    (∀ (fs : FileState) (env : String → Option String)
        (m : String × String × String) (v : String),
      m ∈ push_mappings →
      push_value (((load_config fs).1.toOption).getD []) m = some v →
      v ≠ "" →
      (push_config_to_env fs true env).1 m.2.2 = some v) := by
  have hnd : (push_mappings.map (fun x => x.2.2)).Nodup := by decide
  refine ⟨?_, ?_, ?_, ?_⟩
  · intro fs env
    unfold push_config_to_env
    apply push_fold_noop
    intro m hm hv
    exact push_fold_sets_truthy false _ hm hv (env, [])
  · intro fs env m v hm henv hpv hv
    unfold push_config_to_env
    exact push_fold_sets_unset _ hm (env, []) v hnd henv hpv hv
  · intro fs env k vk henv
    unfold push_config_to_env
    exact push_fold_preserves_value _ push_mappings k vk (env, []) henv
  · intro fs env m v hm hpv hv
    unfold push_config_to_env
    exact push_fold_override_sets _ hm (env, []) v hnd hpv hv

/-- Defaults file for the C8 witness: truthy snowflake `account`, falsy
(empty) snowflake `database`, truthy s3 `region_name`. -/
def fsPush : FileState :=
  .parsed [("snowflake", [("account", "acct-w"), ("database", "")]),
           ("s3", [("region_name", "eu-central-1")])]

/-- Starting environment for the C8 witness: only `AWS_DEFAULT_REGION`
is already set. -/
def envPush : String → Option String :=
  fun k => if k = "AWS_DEFAULT_REGION" then some "old-region" else none

/-- C8 witness: at `fsPush`/`envPush`, the second non-override push is a
no-op; the first push fills the unset `SNOWFLAKE_ACCOUNT` and leaves the
already-set `AWS_DEFAULT_REGION` alone; an override push overwrites it. -/
theorem push_config_to_env_idempotent_witness :
    push_config_to_env fsPush false
        (push_config_to_env fsPush false envPush).1 =
      ((push_config_to_env fsPush false envPush).1, []) ∧
    (push_config_to_env fsPush false envPush).1 "SNOWFLAKE_ACCOUNT" =
      some "acct-w" ∧
    (push_config_to_env fsPush false envPush).1 "AWS_DEFAULT_REGION" =
      some "old-region" ∧
    (push_config_to_env fsPush true envPush).1 "AWS_DEFAULT_REGION" =
      some "eu-central-1" :=
  ⟨push_config_to_env_idempotent.1 fsPush envPush,
   push_config_to_env_idempotent.2.1 fsPush envPush
     ("snowflake", "account", "SNOWFLAKE_ACCOUNT") "acct-w"
     (by decide) (by decide) (by decide) (by decide),
   push_config_to_env_idempotent.2.2.1 fsPush envPush
     "AWS_DEFAULT_REGION" "old-region" (by decide),
   push_config_to_env_idempotent.2.2.2 fsPush envPush
     ("s3", "region_name", "AWS_DEFAULT_REGION") "eu-central-1"
     (by decide) (by decide) (by decide)⟩

end CloudConduit
